import Mathlib

/-!
Verification development for the Surface Evolver Jupyter kernel
(evolver_kernel/kernel.py).

The embedding models the interactive-process control loop of the kernel:
spawn plus handshake (EvolverKernel._spawn_and_handshake), the liveness
probe (_alive), the lazy (re)spawn step (_ensure_evolver), per-line
dispatch (_run_line and the exception handlers of do_execute), and the
public entry point (do_execute).

The child process and the pexpect layer are external; their behaviour at
each interaction point is scripted by an explicit environment:
a HandshakeScript decides, for one spawn-and-handshake run, whether the
spawn succeeds, whether the datafile prompt and the main prompt appear
within their timeouts, and whether the resulting process is alive; a
LineOutcome decides, for one dispatched line, whether the wait for the
prompt returns text, is interrupted by a cancellation request, hits end
of stream, or raises some other exception.  All observable side effects
(lines sent to the child, expect calls with their timeout, interrupt
delivery, stream output on the stdout and stderr channels, SIGINT
disposition changes) are recorded in an event trace.
-/

namespace Evolver

/-- Datafile prompt regex source text (kernel.py line 47). -/
def FILE_PROMPT_PAT : String :=
  "Enter new datafile name\\s*\\(none to continue, q to quit\\):\\s*"

/-- Main prompt regex source text (kernel.py line 48). -/
def MAIN_PROMPT_PAT : String := "Enter command:\\s*"

/-- Literal fallback prompt pattern installed by the degraded handshake path
(kernel.py line 114). -/
def FALLBACK_PAT : String := "> "

/-- Single quote character, used to build the literal messages of kernel.py. -/
def sq : String := (Char.ofNat 39).toString

/-- Diagnostic notice of kernel.py line 100 (datafile prompt not seen). -/
def noDatafileMsg : String := "[EvolverKernel] No vi prompt de datafile; continúo.\n"

/-- Diagnostic notice of kernel.py line 113 (main prompt not seen, fallback). -/
def fallbackStderrMsg : String :=
  "[EvolverKernel] No vi prompt principal; uso fallback " ++ sq ++ "> " ++ sq ++ ".\n"

/-- Stream notice of kernel.py line 115. -/
def fallbackStdoutMsg : String := "[EvolverKernel] Evolver lanzado con prompt fallback.\n"

/-- Stream notice of kernel.py line 119. -/
def launchedMsg : String := "[EvolverKernel] Evolver lanzado. Prompt principal listo.\n"

/-- Diagnostic notice of kernel.py line 187 (child hit end of stream). -/
def eofMsg : String := "[EvolverKernel] Evolver murió (EOF); reinicio.\n"

/-- Diagnostic message of kernel.py line 141, parameterised by the rendered
exception text. -/
def launchErrorMsg (exc : String) : String :=
  "[EvolverKernel] ERROR lanzando Evolver: " ++ exc ++ "\n"

/-- Error message of kernel.py line 167. -/
def noLaunchMsg : String := "[EvolverKernel] ERROR: no pude lanzar Surface Evolver.\n"

/-- Rendered AttributeError text produced when self.child is None and
self.child.sendline is evaluated (kernel.py line 150 via the generic
except of line 191). -/
def noneTypeAttrMsg : String :=
  sq ++ "NoneType" ++ sq ++ " object has no attribute " ++ sq ++ "sendline" ++ sq

/-- Per-line error message of kernel.py line 192, parameterised by the line
and by the rendered exception text. -/
def lineExcMsg (ln e : String) : String :=
  "[EvolverKernel] Excepción ejecutando " ++ sq ++ ln ++ sq ++ ": " ++ e ++ "\n"

/-- A SIGINT disposition: default action, ignore, or an installed handler. -/
inductive SigHandler where
  | dfl
  | ign
  | handler (n : Nat)
  deriving DecidableEq, Repr

/-- Observable side effects of the kernel code, in program order. -/
inductive Event where
  | spawnProc
  | sendLine (text : String)
  | expectCall (pat : String) (timeout : Option Nat)
  | sendIntr
  | emitStdout (text : String)
  | emitStderr (text : String)
  | setSignal (h : SigHandler)
  deriving DecidableEq, Repr

/-- Process-wide configuration read once at startup (kernel.py lines 67-69). -/
structure Config where
  evolverCmd : String
  datafile : String
  debug : Bool
  deriving DecidableEq, Repr

/-- One spawned child process; alive is the result of isalive(). -/
structure Session where
  alive : Bool
  deriving DecidableEq, Repr

/-- Script for one run of _spawn_and_handshake: whether pexpect.spawn
succeeds (and the rendered exception text when it does not), whether the
datafile prompt appears within the timeout, whether the main prompt appears
within the first wait, whether it appears within the 5 unit wait after the
nudge, and what isalive() reports on the resulting child. -/
structure HandshakeScript where
  spawnOk : Bool
  spawnErr : String
  datafileSeen : Bool
  mainSeen : Bool
  nudgeSeen : Bool
  aliveAfter : Bool
  deriving DecidableEq, Repr

/-- Result of one _spawn_and_handshake run: the returned session or the
propagated exception, the resulting prompt pattern attribute, the SIGINT
disposition after the call, and the event trace. -/
structure HsOut where
  result : Except String Session
  promptPat : String
  sigint : SigHandler
  events : List Event
  deriving Repr

/-- EvolverKernel._spawn_and_handshake (kernel.py lines 76-123).  The code
saves the SIGINT disposition, installs the default one, runs the handshake
inside a try block whose finally clause reinstalls the saved disposition on
every exit path.  pat0 is the prompt pattern attribute on entry (left
unchanged when the spawn raises) and sig0 the SIGINT disposition on entry. -/
def spawnAndHandshake (cfg : Config) (hs : HandshakeScript) (pat0 : String)
    (sig0 : SigHandler) (timeout : Nat) : HsOut :=
  let sig := sig0
  let pre : List Event := [Event.setSignal SigHandler.dfl]
  if hs.spawnOk = false then
    ⟨Except.error hs.spawnErr, pat0, sig, pre ++ [Event.spawnProc, Event.setSignal sig]⟩
  else
    let ev1 : List Event :=
      pre ++ [Event.spawnProc, Event.expectCall FILE_PROMPT_PAT (some timeout)] ++
      (if hs.datafileSeen then [] else [Event.emitStderr noDatafileMsg]) ++
      [Event.sendLine cfg.datafile, Event.expectCall MAIN_PROMPT_PAT (some timeout)]
    if hs.mainSeen then
      ⟨Except.ok ⟨hs.aliveAfter⟩, MAIN_PROMPT_PAT, sig,
        ev1 ++ [Event.emitStdout launchedMsg, Event.setSignal sig]⟩
    else
      let ev2 := ev1 ++ [Event.sendLine "", Event.expectCall MAIN_PROMPT_PAT (some 5)]
      if hs.nudgeSeen then
        ⟨Except.ok ⟨hs.aliveAfter⟩, MAIN_PROMPT_PAT, sig,
          ev2 ++ [Event.emitStdout launchedMsg, Event.setSignal sig]⟩
      else
        ⟨Except.ok ⟨hs.aliveAfter⟩, FALLBACK_PAT, sig,
          ev2 ++ [Event.emitStderr fallbackStderrMsg, Event.emitStdout fallbackStdoutMsg,
                  Event.setSignal sig]⟩

/-- Mutable attributes of the EvolverKernel object, plus cursors into the
scripted environment: hsIdx counts the _spawn_and_handshake runs performed
so far, loIdx the lines dispatched through _run_line so far. -/
structure KernelState where
  child : Option Session
  promptPat : String
  sigint : SigHandler
  hsIdx : Nat
  loIdx : Nat
  deriving DecidableEq, Repr

/-- Outcome of one _run_line call (sendline plus expect with no timeout),
as decided by the external child process: normal completion with the text
before the prompt, a KeyboardInterrupt raised during the wait (with the
text available after interrupt delivery and the 2 unit resync attempt),
end of stream, or any other exception with its rendered text. -/
inductive LineOutcome where
  | okOut (out : String)
  | keyboardInterrupt (resyncOk : Bool) (before : String)
  | eofDied
  | exnRaised (msg : String)
  deriving DecidableEq, Repr

/-- Scripted environment: the outcome of the n-th handshake run and of the
n-th dispatched line. -/
structure Env where
  handshakes : Nat → HandshakeScript
  lineOutcomes : Nat → LineOutcome

/-- EvolverKernel._alive (kernel.py lines 128-129). -/
def stAlive (st : KernelState) : Bool :=
  match st.child with
  | some s => s.alive
  | none => false

/-- Result of _ensure_evolver: the updated kernel state and the events. -/
structure EnsureOut where
  st : KernelState
  events : List Event
  deriving Repr

/-- EvolverKernel._ensure_evolver (kernel.py lines 134-141): return at once
when the child is alive; otherwise run _spawn_and_handshake with timeout 30,
store the returned child, or on exception set the child to None and emit the
launch error notice. -/
def ensureEvolver (cfg : Config) (env : Env) (st : KernelState) : EnsureOut :=
  if stAlive st then ⟨st, []⟩
  else
    let hs := env.handshakes st.hsIdx
    let o := spawnAndHandshake cfg hs st.promptPat st.sigint 30
    match o.result with
    | Except.ok s =>
        ⟨{ st with
            child := some s
            promptPat := o.promptPat
            sigint := o.sigint
            hsIdx := st.hsIdx + 1 }, o.events⟩
    | Except.error e =>
        ⟨{ st with
            child := none
            promptPat := o.promptPat
            sigint := o.sigint
            hsIdx := st.hsIdx + 1 }, o.events ++ [Event.emitStderr (launchErrorMsg e)]⟩

/-- Result of dispatching one line: the text recorded for the line, the
updated kernel state and the events. -/
structure StepOut where
  out : String
  st : KernelState
  events : List Event
  deriving Repr

/-- One iteration of the dispatch loop of do_execute (kernel.py lines
176-193): _run_line with its three exception handlers.  When self.child is
None the attribute access raises and the generic handler records the error
text; otherwise the scripted outcome decides the branch.  On
KeyboardInterrupt: sendintr, expect of the current prompt pattern with
timeout 2 (failure ignored), record child.before.  On EOF: emit the
diagnostic notice, drop the child, rerun _ensure_evolver once, record the
empty string.  On any other exception: record the formatted error text. -/
def runOneLine (cfg : Config) (env : Env) (ln : String) (st : KernelState) : StepOut :=
  match st.child with
  | none => ⟨lineExcMsg ln noneTypeAttrMsg, st, []⟩
  | some _ =>
      let o := env.lineOutcomes st.loIdx
      let st1 := { st with loIdx := st.loIdx + 1 }
      let dev : List Event := [Event.sendLine ln, Event.expectCall st.promptPat none]
      match o with
      | LineOutcome.okOut out => ⟨out, st1, dev⟩
      | LineOutcome.keyboardInterrupt _ before =>
          ⟨before, st1, dev ++ [Event.sendIntr, Event.expectCall st.promptPat (some 2)]⟩
      | LineOutcome.eofDied =>
          let e := ensureEvolver cfg env { st1 with child := none }
          ⟨"", e.st, dev ++ [Event.emitStderr eofMsg] ++ e.events⟩
      | LineOutcome.exnRaised m => ⟨lineExcMsg ln m, st1, dev⟩

/-- Result of the dispatch loop over a whole block. -/
structure RunOut where
  outs : List String
  st : KernelState
  events : List Event
  deriving Repr

/-- The dispatch loop of do_execute over the non-empty lines of the block,
collecting the per-line outputs in order. -/
def execLines (cfg : Config) (env : Env) : List String → KernelState → RunOut
  | [], st => ⟨[], st, []⟩
  | ln :: rest, st =>
      let s1 := runOneLine cfg env ln st
      let s2 := execLines cfg env rest s1.st
      ⟨s1.out :: s2.outs, s2.st, s1.events ++ s2.events⟩

/-- Overall status of an execute reply. -/
inductive Status where
  | ok
  | error
  deriving DecidableEq, Repr

/-- The reply of do_execute: the status, the concatenated captured text
(the join of the per-line outputs, computed at kernel.py line 195), and on
error the exception name and value of the reply dict. -/
structure ExecResult where
  status : Status
  text : String
  ename : Option String
  evalue : Option String
  deriving DecidableEq, Repr

/-- Result of do_execute: the reply, the updated state and the events. -/
structure ExecOut where
  res : ExecResult
  st : KernelState
  events : List Event
  deriving Repr

/-- Python str.strip() whitespace characters. -/
def isPyWhite (c : Char) : Bool :=
  c == ' ' || c == '\t' || c == '\n' || c == '\r' || c == Char.ofNat 11 || c == Char.ofNat 12

/-- Python truth test `not s.strip()`: every character is whitespace. -/
def pyBlank (s : String) : Bool := s.data.all isPyWhite

/-- Python `s.rstrip(chr(10))`: drop trailing newline characters. -/
def rstripNl (s : String) : String :=
  String.mk ((s.data.reverse.dropWhile fun c => c == '\n').reverse)

/-- Split a character list at newline characters (Python str.splitlines on
a string whose trailing newlines were already stripped). -/
def splitNl : List Char → List (List Char)
  | [] => [[]]
  | c :: cs =>
      match splitNl cs with
      | [] => [[c]]
      | r :: rs => if c == '\n' then [] :: r :: rs else (c :: r) :: rs

/-- The non-empty lines of the block: kernel.py line 158 strips trailing
newlines, line 176 splits into lines and keeps those with a non-blank
strip. -/
def blockLines (code : String) : List String :=
  ((splitNl (rstripNl code).data).map fun l => String.mk l).filter fun l => !(pyBlank l)

/-- EvolverKernel.do_execute (kernel.py lines 157-200): strip trailing
newlines; on a blank block reply ok at once with no interaction; otherwise
run _ensure_evolver, and if the child is still not alive reply with an
error status (emitting the launch error unless silent); otherwise dispatch
every non-empty line, join the captured outputs, forward the text on the
stdout stream when silent is unset and the text non-empty, and reply ok. -/
def doExecute (code : String) (silent : Bool) (cfg : Config) (env : Env)
    (st : KernelState) : ExecOut :=
  let code1 := rstripNl code
  if pyBlank code1 then
    ⟨⟨Status.ok, "", none, none⟩, st, []⟩
  else
    let e := ensureEvolver cfg env st
    if stAlive e.st = false then
      let evErr : List Event := if silent = false then [Event.emitStderr noLaunchMsg] else []
      ⟨⟨Status.error, "", some "RuntimeError", some noLaunchMsg⟩, e.st, e.events ++ evErr⟩
    else
      let r := execLines cfg env (blockLines code) e.st
      let text := String.join r.outs
      let evOut : List Event :=
        if silent = false ∧ text ≠ "" then [Event.emitStdout text] else []
      ⟨⟨Status.ok, text, none, none⟩, r.st, e.events ++ r.events ++ evOut⟩

/-- Lifecycle of a Session Handle as the spec describes it. -/
inductive SessionLife where
  | notStarted
  | running
  | terminated
  deriving DecidableEq, Repr

/-- Modelled from the spec: the Session Handle operation terminate() (spec
section 4.2) has no body under src (the repository delegates process
teardown to the pexpect layer); per the spec it forcibly ends the process,
releases the pseudo-terminal, and is idempotent, hence total: from any
lifecycle state, including never-started and already-terminated, it
succeeds and leaves the handle terminated. -/
def terminate : SessionLife → Except String SessionLife
  | _ => Except.ok SessionLife.terminated

/-! Helper lemmas shared by the claim theorems. -/

/-- Stripping trailing newlines preserves blankness. -/
lemma pyBlank_rstripNl_of_pyBlank (s : String) (h : pyBlank s = true) :
    pyBlank (rstripNl s) = true := by
  have hd : (rstripNl s).data = (s.data.reverse.dropWhile fun c => c == '\n').reverse := rfl
  unfold pyBlank at h ⊢
  rw [List.all_eq_true] at h
  rw [hd, List.all_eq_true]
  intro c hc
  rw [List.mem_reverse] at hc
  exact h c (List.mem_reverse.mp ((List.dropWhile_sublist _).mem hc))

/-- On a state whose child is not alive, the ensure step runs exactly one
spawn-and-handshake, whatever its outcome. -/
lemma ensureEvolver_hsIdx (cfg : Config) (env : Env) (st : KernelState)
    (h : stAlive st = false) :
    (ensureEvolver cfg env st).st.hsIdx = st.hsIdx + 1 := by
  unfold ensureEvolver
  rw [h]
  simp only [Bool.false_eq_true, if_false]
  split <;> rfl

/-! Concrete fixtures used by the witnesses and the counterexample. -/

/-- Concrete configuration. -/
def cfgW : Config := ⟨"evolver", "square.fe", false⟩

/-- Handshake script of a fully successful launch. -/
def hsOkW : HandshakeScript := ⟨true, "", true, true, true, true⟩

/-- Kernel state before any spawn. -/
def stW : KernelState := ⟨none, MAIN_PROMPT_PAT, SigHandler.handler 7, 0, 0⟩

/-- A live session. -/
def sessW : Session := ⟨true⟩

/-- Kernel state holding a live session. -/
def stLiveW : KernelState := ⟨some sessW, MAIN_PROMPT_PAT, SigHandler.handler 7, 1, 0⟩

/-- Environment whose child dies with end of stream on every line. -/
def envEofW : Env := ⟨fun _ => hsOkW, fun _ => LineOutcome.eofDied⟩

/-- Environment whose every line wait is interrupted by a cancellation. -/
def envIntrW : Env := ⟨fun _ => hsOkW, fun _ => LineOutcome.keyboardInterrupt false "partial out"⟩

/-- Environment whose every line raises a generic exception. -/
def envExnW : Env := ⟨fun _ => hsOkW, fun _ => LineOutcome.exnRaised "boom"⟩

/-- Environment whose every line completes with empty captured text. -/
def envOkEmptyW : Env := ⟨fun _ => hsOkW, fun _ => LineOutcome.okOut ""⟩

/-- Environment whose every line completes with non-empty captured text. -/
def envOkTextW : Env := ⟨fun _ => hsOkW, fun _ => LineOutcome.okOut "area 1.0\n"⟩

/-! Claim theorems. -/

/-- Claim C1: once past the ensure-live step with a live session, do_execute
replies with ok status no matter what happens per line; the only error-status
reply is the pre-dispatch launch failure, that is exactly the runs on a
non-blank block where no live session exists after the ensure step. -/
theorem execute_error_iff_no_live_session (code : String) (silent : Bool)
    (cfg : Config) (env : Env) (st : KernelState) :
    (doExecute code silent cfg env st).res.status = Status.error ↔
      pyBlank (rstripNl code) = false ∧ stAlive (ensureEvolver cfg env st).st = false := by
  by_cases h1 : pyBlank (rstripNl code) = true
  · simp [doExecute, h1]
  · have h1f : pyBlank (rstripNl code) = false := by simpa using h1
    by_cases h2 : stAlive (ensureEvolver cfg env st).st = true
    · simp [doExecute, h1f, h2]
    · have h2f : stAlive (ensureEvolver cfg env st).st = false := by simpa using h2
      simp [doExecute, h1f, h2f]

/-- Claim C6: on a blank block (empty or whitespace only) do_execute replies
ok with empty text at once, leaves the kernel state untouched, and performs
no process interaction at all: no spawn, no send, no event of any kind. -/
theorem blank_block_short_circuit (code : String) (silent : Bool) (cfg : Config)
    (env : Env) (st : KernelState) (h : pyBlank code = true) :
    doExecute code silent cfg env st = ⟨⟨Status.ok, "", none, none⟩, st, []⟩ := by
  simp [doExecute, pyBlank_rstripNl_of_pyBlank code h]

/-- Witness for claim C6 at a concrete whitespace-only block. -/
theorem blank_block_short_circuit_witness :
    doExecute " \t\n" false cfgW envOkEmptyW stW =
      ⟨⟨Status.ok, "", none, none⟩, stW, []⟩ :=
  blank_block_short_circuit " \t\n" false cfgW envOkEmptyW stW (by decide)

/-- Claim C4: in every handshake run where the main prompt misses its first
wait, the controller sends exactly one empty nudge line and waits up to 5
time units again (the pinned common event prefix); when the main prompt is
still absent after the nudge it switches the active pattern to the literal
fallback, emits the diagnostic notice, and still returns a session instead
of failing. -/
theorem handshake_nudge_then_fallback (cfg : Config) (pat : String) (sig : SigHandler)
    (t : Nat) (d n a : Bool) (e : String) :
    spawnAndHandshake cfg ⟨true, e, d, false, n, a⟩ pat sig t =
      ⟨Except.ok ⟨a⟩, (if n then MAIN_PROMPT_PAT else FALLBACK_PAT), sig,
        [Event.setSignal SigHandler.dfl, Event.spawnProc,
         Event.expectCall FILE_PROMPT_PAT (some t)] ++
        (if d then [] else [Event.emitStderr noDatafileMsg]) ++
        [Event.sendLine cfg.datafile, Event.expectCall MAIN_PROMPT_PAT (some t),
         Event.sendLine "", Event.expectCall MAIN_PROMPT_PAT (some 5)] ++
        (if n then [Event.emitStdout launchedMsg]
         else [Event.emitStderr fallbackStderrMsg, Event.emitStdout fallbackStdoutMsg]) ++
        [Event.setSignal sig]⟩ := by
  cases d <;> cases n <;> rfl

/-- Claim C5: when the datafile prompt never shows within the timeout the
handshake logs the diagnostic warning, still sends the configured initial
datafile line, and reaches the ready state with the main prompt pattern
when the main prompt appears afterwards. -/
theorem handshake_datafile_timeout_tolerated (cfg : Config) (pat : String)
    (sig : SigHandler) (t : Nat) (n a : Bool) (e : String) :
    spawnAndHandshake cfg ⟨true, e, false, true, n, a⟩ pat sig t =
      ⟨Except.ok ⟨a⟩, MAIN_PROMPT_PAT, sig,
        [Event.setSignal SigHandler.dfl, Event.spawnProc,
         Event.expectCall FILE_PROMPT_PAT (some t), Event.emitStderr noDatafileMsg,
         Event.sendLine cfg.datafile, Event.expectCall MAIN_PROMPT_PAT (some t),
         Event.emitStdout launchedMsg, Event.setSignal sig]⟩ := rfl

/-- Claim C9: terminate on a Session Handle is idempotent and total: from
any lifecycle state, including never-started and already-terminated, it
succeeds, and a second call succeeds again leaving the state unchanged. -/
theorem terminate_idempotent :
    ∀ s : SessionLife, terminate s = Except.ok SessionLife.terminated ∧
      terminate SessionLife.terminated = Except.ok SessionLife.terminated :=
  fun _ => ⟨rfl, rfl⟩

/-- Claim C10: every spawn-and-handshake run, whether it succeeds, degrades
to the fallback prompt, or propagates an exception, first resets the SIGINT
disposition to the default and finally reinstalls the disposition that was
installed on entry, so the disposition after the call equals the one before
it. -/
theorem handshake_restores_sigint (cfg : Config) (hs : HandshakeScript) (pat : String)
    (sig : SigHandler) (t : Nat) :
    (spawnAndHandshake cfg hs pat sig t).sigint = sig ∧
    (spawnAndHandshake cfg hs pat sig t).events.head? =
      some (Event.setSignal SigHandler.dfl) ∧
    (spawnAndHandshake cfg hs pat sig t).events.getLast? =
      some (Event.setSignal sig) := by
  obtain ⟨so, se, ds, ms, ns, aa⟩ := hs
  cases so <;> cases ds <;> cases ms <;> cases ns <;> exact ⟨rfl, rfl, rfl⟩

/-- Claim C3: on a cancellation request during the wait for a line, the
loop delivers an interrupt, waits up to 2 time units for the active prompt
pattern, records the text available before the match point as the line
output (independently of whether the resync expect succeeded, which is the
quantified flag r), keeps the same session without running any respawn (the
child and the handshake counter are unchanged), and continues with the next
line. -/
theorem interrupt_resync_same_session (cfg : Config) (env : Env) (st : KernelState)
    (s : Session) (ln : String) (rest : List String) (r : Bool) (b : String)
    (hchild : st.child = some s)
    (ho : env.lineOutcomes st.loIdx = LineOutcome.keyboardInterrupt r b) :
    runOneLine cfg env ln st =
      ⟨b, { st with loIdx := st.loIdx + 1 },
        [Event.sendLine ln, Event.expectCall st.promptPat none,
         Event.sendIntr, Event.expectCall st.promptPat (some 2)]⟩ ∧
    ({ st with loIdx := st.loIdx + 1 } : KernelState).child = some s ∧
    ({ st with loIdx := st.loIdx + 1 } : KernelState).hsIdx = st.hsIdx ∧
    (execLines cfg env (ln :: rest) st).outs =
      b :: (execLines cfg env rest { st with loIdx := st.loIdx + 1 }).outs := by
  have h1 : runOneLine cfg env ln st = ⟨b, { st with loIdx := st.loIdx + 1 },
      [Event.sendLine ln, Event.expectCall st.promptPat none,
       Event.sendIntr, Event.expectCall st.promptPat (some 2)]⟩ := by
    unfold runOneLine
    rw [hchild]
    simp [ho]
  refine ⟨h1, hchild, rfl, ?_⟩
  show (runOneLine cfg env ln st).out ::
      (execLines cfg env rest (runOneLine cfg env ln st).st).outs =
    b :: (execLines cfg env rest { st with loIdx := st.loIdx + 1 }).outs
  rw [h1]

/-- Witness for claim C3 at a concrete cancelled line. -/
theorem interrupt_resync_same_session_witness :
    runOneLine cfgW envIntrW "u 1" stLiveW =
      ⟨"partial out", { stLiveW with loIdx := stLiveW.loIdx + 1 },
        [Event.sendLine "u 1", Event.expectCall stLiveW.promptPat none,
         Event.sendIntr, Event.expectCall stLiveW.promptPat (some 2)]⟩ ∧
    ({ stLiveW with loIdx := stLiveW.loIdx + 1 } : KernelState).child = some sessW ∧
    ({ stLiveW with loIdx := stLiveW.loIdx + 1 } : KernelState).hsIdx = stLiveW.hsIdx ∧
    (execLines cfgW envIntrW ("u 1" :: ["g 5"]) stLiveW).outs =
      "partial out" ::
        (execLines cfgW envIntrW ["g 5"] { stLiveW with loIdx := stLiveW.loIdx + 1 }).outs :=
  interrupt_resync_same_session cfgW envIntrW stLiveW sessW "u 1" ["g 5"]
    false "partial out" rfl rfl

/-- Claim C7: when the dispatch of a line fails with any exception other
than end of stream or cancellation, the loop records the descriptive error
message as that line output and continues with the remaining lines of the
block using the same state apart from the line cursor. -/
theorem line_exception_recorded_and_continue (cfg : Config) (env : Env)
    (st : KernelState) (s : Session) (ln : String) (rest : List String) (m : String)
    (hchild : st.child = some s)
    (ho : env.lineOutcomes st.loIdx = LineOutcome.exnRaised m) :
    runOneLine cfg env ln st =
      ⟨lineExcMsg ln m, { st with loIdx := st.loIdx + 1 },
        [Event.sendLine ln, Event.expectCall st.promptPat none]⟩ ∧
    (execLines cfg env (ln :: rest) st).outs =
      lineExcMsg ln m ::
        (execLines cfg env rest { st with loIdx := st.loIdx + 1 }).outs := by
  have h1 : runOneLine cfg env ln st = ⟨lineExcMsg ln m, { st with loIdx := st.loIdx + 1 },
      [Event.sendLine ln, Event.expectCall st.promptPat none]⟩ := by
    unfold runOneLine
    rw [hchild]
    simp [ho]
  refine ⟨h1, ?_⟩
  show (runOneLine cfg env ln st).out ::
      (execLines cfg env rest (runOneLine cfg env ln st).st).outs =
    lineExcMsg ln m :: (execLines cfg env rest { st with loIdx := st.loIdx + 1 }).outs
  rw [h1]

/-- Witness for claim C7 at a concrete failing line. -/
theorem line_exception_recorded_and_continue_witness :
    runOneLine cfgW envExnW "u 1" stLiveW =
      ⟨lineExcMsg "u 1" "boom", { stLiveW with loIdx := stLiveW.loIdx + 1 },
        [Event.sendLine "u 1", Event.expectCall stLiveW.promptPat none]⟩ ∧
    (execLines cfgW envExnW ("u 1" :: ["g 5"]) stLiveW).outs =
      lineExcMsg "u 1" "boom" ::
        (execLines cfgW envExnW ["g 5"] { stLiveW with loIdx := stLiveW.loIdx + 1 }).outs :=
  line_exception_recorded_and_continue cfgW envExnW stLiveW sessW "u 1" ["g 5"]
    "boom" rfl rfl

/-- Claim C2: when the child hits end of stream during a line, the loop
emits the diagnostic notice, discards the session, reruns the ensure-live
step exactly once (the handshake counter grows by one whatever the respawn
outcome), records the empty string as that line output, and continues with
the remaining lines from the state the ensure step produced; and a
do_execute call that got past its ensure step still replies ok. -/
theorem eof_line_respawn_and_continue (cfg : Config) (env : Env) (st : KernelState)
    (s : Session) (ln : String) (rest : List String) (code : String) (silent : Bool)
    (st0 : KernelState)
    (hchild : st.child = some s)
    (ho : env.lineOutcomes st.loIdx = LineOutcome.eofDied)
    (hnb : pyBlank (rstripNl code) = false)
    (halive : stAlive (ensureEvolver cfg env st0).st = true) :
    runOneLine cfg env ln st =
      ⟨"", (ensureEvolver cfg env { st with loIdx := st.loIdx + 1, child := none }).st,
        [Event.sendLine ln, Event.expectCall st.promptPat none, Event.emitStderr eofMsg] ++
        (ensureEvolver cfg env { st with loIdx := st.loIdx + 1, child := none }).events⟩ ∧
    (ensureEvolver cfg env { st with loIdx := st.loIdx + 1, child := none }).st.hsIdx
        = st.hsIdx + 1 ∧
    (execLines cfg env (ln :: rest) st).outs =
      "" :: (execLines cfg env rest
        (ensureEvolver cfg env { st with loIdx := st.loIdx + 1, child := none }).st).outs ∧
    (doExecute code silent cfg env st0).res.status = Status.ok := by
  have h1 : runOneLine cfg env ln st =
      ⟨"", (ensureEvolver cfg env { st with loIdx := st.loIdx + 1, child := none }).st,
        [Event.sendLine ln, Event.expectCall st.promptPat none, Event.emitStderr eofMsg] ++
        (ensureEvolver cfg env { st with loIdx := st.loIdx + 1, child := none }).events⟩ := by
    unfold runOneLine
    rw [hchild]
    simp [ho]
  refine ⟨h1, ensureEvolver_hsIdx cfg env _ rfl, ?_, by simp [doExecute, hnb, halive]⟩
  show (runOneLine cfg env ln st).out ::
      (execLines cfg env rest (runOneLine cfg env ln st).st).outs =
    "" :: (execLines cfg env rest
      (ensureEvolver cfg env { st with loIdx := st.loIdx + 1, child := none }).st).outs
  rw [h1]

/-- Witness for claim C2 at a concrete two-line block whose first line hits
end of stream. -/
theorem eof_line_respawn_and_continue_witness :
    runOneLine cfgW envEofW "u 1" stLiveW =
      ⟨"", (ensureEvolver cfgW envEofW
              { stLiveW with loIdx := stLiveW.loIdx + 1, child := none }).st,
        [Event.sendLine "u 1", Event.expectCall stLiveW.promptPat none,
         Event.emitStderr eofMsg] ++
        (ensureEvolver cfgW envEofW
          { stLiveW with loIdx := stLiveW.loIdx + 1, child := none }).events⟩ ∧
    (ensureEvolver cfgW envEofW
        { stLiveW with loIdx := stLiveW.loIdx + 1, child := none }).st.hsIdx
      = stLiveW.hsIdx + 1 ∧
    (execLines cfgW envEofW ("u 1" :: ["g 5"]) stLiveW).outs =
      "" :: (execLines cfgW envEofW ["g 5"]
        (ensureEvolver cfgW envEofW
          { stLiveW with loIdx := stLiveW.loIdx + 1, child := none }).st).outs ∧
    (doExecute "u 1\ng 5" false cfgW envEofW stW).res.status = Status.ok :=
  eof_line_respawn_and_continue cfgW envEofW stLiveW sessW "u 1" ["g 5"]
    "u 1\ng 5" false stW rfl rfl (by decide) (by decide)

/-- Claim C8 counterexample: at the concrete call with silent unset and a
line whose captured output is empty, the withholding condition of the claim
(silent set and text non-empty) does not hold, yet the empty concatenated
text is not forwarded to the normal output channel: no stream event carries
it.  The code forwards only when silent is unset and the text is non-empty. -/
theorem forwarding_claim_counterexample :
    (doExecute "x" false cfgW envOkEmptyW stW).res.text = "" ∧
    Event.emitStdout "" ∉ (doExecute "x" false cfgW envOkEmptyW stW).events := by
  decide

/-- Claim C8 (amended): after dispatching a block, do_execute forwards the
concatenated captured text to the normal output channel exactly when the
silent flag is unset and the text is non-empty; otherwise (silent set, or
text empty) nothing is appended to the event trace beyond the ensure and
dispatch events. -/
theorem forwarding_iff_not_silent_and_nonempty (code : String) (silent : Bool)
    (cfg : Config) (env : Env) (st : KernelState)
    (hnb : pyBlank (rstripNl code) = false)
    (halive : stAlive (ensureEvolver cfg env st).st = true) :
    (doExecute code silent cfg env st).res.text =
      String.join (execLines cfg env (blockLines code) (ensureEvolver cfg env st).st).outs ∧
    (doExecute code silent cfg env st).events =
      (ensureEvolver cfg env st).events ++
      (execLines cfg env (blockLines code) (ensureEvolver cfg env st).st).events ++
      (if silent = false ∧
          String.join (execLines cfg env (blockLines code)
            (ensureEvolver cfg env st).st).outs ≠ ""
        then [Event.emitStdout (String.join (execLines cfg env (blockLines code)
                (ensureEvolver cfg env st).st).outs)]
        else []) := by
  simp [doExecute, hnb, halive]

/-- Witness for the amended claim C8 at a concrete non-silent call with
non-empty captured text. -/
theorem forwarding_iff_not_silent_and_nonempty_witness :
    (doExecute "u 1" false cfgW envOkTextW stW).res.text =
      String.join (execLines cfgW envOkTextW (blockLines "u 1")
        (ensureEvolver cfgW envOkTextW stW).st).outs ∧
    (doExecute "u 1" false cfgW envOkTextW stW).events =
      (ensureEvolver cfgW envOkTextW stW).events ++
      (execLines cfgW envOkTextW (blockLines "u 1")
        (ensureEvolver cfgW envOkTextW stW).st).events ++
      (if (false : Bool) = false ∧
          String.join (execLines cfgW envOkTextW (blockLines "u 1")
            (ensureEvolver cfgW envOkTextW stW).st).outs ≠ ""
        then [Event.emitStdout (String.join (execLines cfgW envOkTextW (blockLines "u 1")
                (ensureEvolver cfgW envOkTextW stW).st).outs)]
        else []) :=
  forwarding_iff_not_silent_and_nonempty "u 1" false cfgW envOkTextW stW
    (by decide) (by decide)

end Evolver
